import Mathlib

/-!
Shallow embedding of the Tornado-Tester library (tornado_tester package):
`tester.py` (the `Tester` lifecycle harness, `url_for`, `_add_query_params`,
and the `gen_test` generator-coroutine adapter), `httpclient.py` (the
extended `AsyncHTTPClient.fetch` with `form`/`files` convenience encodings
and `encode_multipart`), and `util.py` (the `encoding` charset detector).
Python byte strings are modelled as `List Nat` (one entry per byte), Python
text strings as Lean `String`, Python keyword-argument dicts as association
lists with first-occurrence lookup, and fallible operations as
`Except String`.
-/

namespace TornadoTester

/-- UTF-8 encoding of a single character, byte by byte; models Python's
`str.encode('utf-8')` on a one-character string. -/
def utf8Char (c : Char) : List Nat :=
  let n := c.toNat
  if n < 128 then [n]
  else if n < 2048 then [192 + n / 64, 128 + n % 64]
  else if n < 65536 then [224 + n / 4096, 128 + (n / 64) % 64, 128 + n % 64]
  else [240 + n / 262144, 128 + (n / 4096) % 64, 128 + (n / 64) % 64, 128 + n % 64]

/-- Models Python's `str.encode('utf-8')` (and the library's `utf8` helper
applied to a text string): the UTF-8 byte sequence of a string. -/
def utf8Bytes (s : String) : List Nat :=
  s.toList.flatMap utf8Char

/-- Uppercase hexadecimal digit for a value below 16. -/
def hexDigitChar (n : Nat) : Char :=
  if n < 10 then Char.ofNat (48 + n) else Char.ofNat (55 + n)

/-- Percent-encoding of one byte, as `%XX` with uppercase hex digits. -/
def percentByte (b : Nat) : String :=
  "%" ++ String.singleton (hexDigitChar (b / 16)) ++ String.singleton (hexDigitChar (b % 16))

/-- Models `urllib.parse.quote_plus` on one character with an empty safe
set: ASCII alphanumerics and `_.-~` pass through, a space becomes `+`, and
every other character is percent-encoded byte-wise over its UTF-8 bytes. -/
def quotePlusChar (c : Char) : String :=
  if c = ' ' then "+"
  else if c.isAlphanum || c = '_' || c = '.' || c = '-' || c = '~' then String.singleton c
  else String.join ((utf8Char c).map percentByte)

/-- Models `urllib.parse.quote_plus` with the default empty safe set. -/
def quote_plus (s : String) : String :=
  String.join (s.toList.map quotePlusChar)

/-- Models `urllib.parse.urlencode` on a mapping given as an ordered list of
key/value pairs: each pair becomes `quote_plus(key)=quote_plus(value)` and
the pairs are joined with `&`. -/
def urlencode (l : List (String × String)) : String :=
  String.intercalate "&" (l.map (fun kv => quote_plus kv.1 ++ "=" ++ quote_plus kv.2))

/-- Models Python's `str.startswith`: the candidate prefix's characters
are a prefix of the string's characters. -/
def strStartsWith (s pre : String) : Bool :=
  pre.toList.isPrefixOf s.toList

/-- Models Python's `c in s` membership test for a single character. -/
def strContainsChar (s : String) (c : Char) : Bool :=
  s.toList.contains c

/-- Splits a character list at the first occurrence of `c`: the part
before it, and the remainder after it when present. Models Python's
`split(c, 1)`. -/
def splitFirstChar (c : Char) : List Char → List Char × Option (List Char)
  | [] => ([], none)
  | x :: t =>
    if x = c then ([], some t)
    else
      let r := splitFirstChar c t
      (x :: r.1, r.2)

/-- Splits a character list at every occurrence of `c`, like Python's
`split(c)`. -/
def splitOnChar (c : Char) : List Char → List (List Char)
  | [] => [[]]
  | x :: t =>
    let r := splitOnChar c t
    if x = c then [] :: r
    else
      match r with
      | [] => [[x]]
      | h :: t1 => (x :: h) :: t1

/-- Whitespace predicate for header-parameter trimming. -/
def isSpaceChar (c : Char) : Bool :=
  c = ' ' || c = '\t' || c = '\n' || c = '\r'

/-- Trims leading and trailing whitespace from a character list. -/
def trimChars (l : List Char) : List Char :=
  ((l.dropWhile isSpaceChar).reverse.dropWhile isSpaceChar).reverse

/-- Lowercases one ASCII letter. -/
def lowerChar (c : Char) : Char :=
  if 'A' ≤ c && c ≤ 'Z' then Char.ofNat (c.toNat + 32) else c

/-! ## util.py -/

/-- An HTTP response as consumed by `util.encoding`: the header mapping is
projected to the two keys the function consults (`Content-Encoding` and
`Content-Type`, absent or present with a text value), plus the raw body. -/
structure HTTPResponse where
  contentEncoding : Option String
  contentType : Option String
  body : List Nat
deriving DecidableEq

/-- Strips one layer of surrounding double quotes from a parameter value,
as the email-header parameter accessor does when unquoting. -/
def stripQuotes (l : List Char) : List Char :=
  if 2 ≤ l.length && l.head? = some '"' && l.getLast? = some '"' then
    (l.drop 1).dropLast
  else l

/-- Splits a `key=value` parameter item at its first `=`; yields the
lowercased, trimmed key and the trimmed, unquoted value; `none` when the
item holds no `=`. -/
def paramKeyValue (item : List Char) : Option (String × String) :=
  match splitFirstChar '=' item with
  | (_, none) => none
  | (k, some v) =>
    some (((trimChars k).map lowerChar).asString,
      (stripQuotes (trimChars v)).asString)

/-- Models the charset-parameter extraction that `util.encoding` performs
via `email.message_from_string('Content-Type: ' + value).get_param('charset')`:
the header value is split on `;`, and the first `charset=...` parameter's
unquoted value is returned, if any. -/
def charsetParam (ct : String) : Option String :=
  (splitOnChar ';' ct.toList).findSome? (fun item =>
    match paramKeyValue item with
    | some (k, v) => if k = "charset" then some v else none
    | none => none)

/-- Embeds `util.encoding`: the decoded `Content-Encoding` header value if
that header is present; else the charset parameter of `Content-Type`
(default `utf-8`) if that header is present; else `utf-8`. -/
def encoding (r : HTTPResponse) : String :=
  match r.contentEncoding with
  | some ce => ce
  | none =>
    match r.contentType with
    | some ct => (charsetParam ct).getD "utf-8"
    | none => "utf-8"

/-! ## tester.py: `_add_query_params` -/

/-- Models Python's `url.split('#', 1)`: the part before the first `#`, and
the remainder after it when a `#` is present. -/
def splitFirstHash (url : String) : String × Option String :=
  let r := splitFirstChar '#' url.toList
  (r.1.asString, r.2.map List.asString)

/-- Embeds `tester._add_query_params`: with a non-empty parameter mapping,
URL-encodes it and joins it to the pre-fragment part of the URL with `&`
when that part already holds a `?`, else with `?`; a fragment is re-appended
after the query string; an empty mapping leaves the URL unchanged. -/
def _add_query_params (url : String) (params : List (String × String)) : String :=
  if params.isEmpty then url
  else
    let query := urlencode params
    let split := splitFirstHash url
    let merged :=
      if strContainsChar split.1 '?' then split.1 ++ "&" ++ query
      else split.1 ++ "?" ++ query
    match split.2 with
    | some frag => merged ++ "#" ++ frag
    | none => merged

/-! ## httpclient.py -/

/-- A value stored in an HTTP-header mapping: the wrapper writes both text
values (`Content-Length`, the form branch's `Content-Type`) and byte values
(the multipart branch's `Content-Type`). -/
inductive HVal where
  | str (s : String)
  | bytes (b : List Nat)
deriving DecidableEq

/-- A Python value passed as a keyword argument to the extended `fetch`:
text, bytes, a form mapping (name to scalar value), a files mapping (name
to a filename/byte-content pair), or a header mapping. -/
inductive PyVal where
  | str (s : String)
  | bytes (b : List Nat)
  | form (l : List (String × String))
  | files (l : List (String × String × List Nat))
  | hdrs (h : List (String × HVal))
deriving DecidableEq

/-- Python truthiness of the modelled values: strings, byte strings and
mappings are truthy exactly when non-empty. -/
def PyVal.truthy : PyVal → Bool
  | .str s => !s.isEmpty
  | .bytes b => !b.isEmpty
  | .form l => !l.isEmpty
  | .files l => !l.isEmpty
  | .hdrs h => !h.isEmpty

/-- Python truthiness of an optional value: `None` is falsy. -/
def truthyOpt : Option PyVal → Bool
  | none => false
  | some v => v.truthy

/-- Dictionary lookup on a keyword-argument list (first occurrence). -/
def kwGet (k : String) : List (String × PyVal) → Option PyVal
  | [] => none
  | kv :: t => if kv.1 = k then some kv.2 else kwGet k t

/-- Key removal on a keyword-argument list, as done by `kwargs.pop(k)`. -/
def kwRemove (k : String) : List (String × PyVal) → List (String × PyVal)
  | [] => []
  | kv :: t => if kv.1 = k then kwRemove k t else kv :: kwRemove k t

/-- Dictionary assignment `kwargs[k] = v`: replaces the first binding of
`k` in place, or appends a new binding. -/
def kwSet (k : String) (v : PyVal) : List (String × PyVal) → List (String × PyVal)
  | [] => [(k, v)]
  | kv :: t => if kv.1 = k then (k, v) :: t else kv :: kwSet k v t

/-- Models `kwargs.setdefault(k, v)`: binds `k` to `v` only when `k` is
absent. -/
def kwSetdefault (k : String) (v : PyVal) (l : List (String × PyVal)) :
    List (String × PyVal) :=
  if (kwGet k l).isSome then l else l ++ [(k, v)]

/-- Header-mapping lookup (first occurrence). -/
def hGet (k : String) : List (String × HVal) → Option HVal
  | [] => none
  | kv :: t => if kv.1 = k then some kv.2 else hGet k t

/-- Header-mapping assignment `headers[k] = v`. -/
def hSet (k : String) (v : HVal) : List (String × HVal) → List (String × HVal)
  | [] => [(k, v)]
  | kv :: t => if kv.1 = k then (k, v) :: t else kv :: hSet k v t

/-- Reads a popped `form` keyword value as a form mapping; absent values
give the empty mapping, mirroring `form = form or` followed by an empty
dict in the multipart branch. -/
def asForm : Option PyVal → List (String × String)
  | some (.form l) => l
  | _ => []

/-- Reads a popped `files` keyword value as a files mapping. -/
def asFiles : Option PyVal → List (String × String × List Nat)
  | some (.files l) => l
  | _ => []

/-- Reads a popped `headers` keyword value as a header mapping; mirrors
`kwargs.pop('headers', ...)` with an empty-dict default. -/
def asHeaders : Option PyVal → List (String × HVal)
  | some (.hdrs h) => h
  | _ => []

/-- Embeds `httpclient.encode_multipart`: for each form field a `--boundary`
line, a `Content-Disposition` line naming the field, a blank line and the
field value; for each file field a `--boundary` line, a `Content-Disposition`
line naming the field and its filename, a blank line and the file's bytes;
then the `--boundary--` terminator line and a final empty line, all joined
with CRLF (so the terminator line also ends in CRLF). -/
def encode_multipart (form : List (String × String))
    (files : List (String × String × List Nat)) (boundary : List Nat) : List Nat :=
  let lines : List (List Nat) :=
    (form.flatMap (fun kv =>
      [utf8Bytes "--" ++ boundary,
       utf8Bytes "Content-Disposition: form-data; name=\"" ++ utf8Bytes kv.1 ++ utf8Bytes "\"",
       [],
       utf8Bytes kv.2])) ++
    (files.flatMap (fun kfc =>
      [utf8Bytes "--" ++ boundary,
       utf8Bytes "Content-Disposition: form-data; name=\"" ++ utf8Bytes kfc.1 ++
         utf8Bytes "\"; filename=\"" ++ utf8Bytes kfc.2.1 ++ utf8Bytes "\"",
       [],
       kfc.2.2])) ++
    [utf8Bytes "--" ++ boundary ++ utf8Bytes "--", []]
  List.intercalate [13, 10] lines

/-- The multipart line sequence exactly as the specification lists it: form
field blocks, then file field blocks, then the `--boundary--` terminator
line, with no further line. -/
def multipartLinesSpec (form : List (String × String))
    (files : List (String × String × List Nat)) (boundary : List Nat) :
    List (List Nat) :=
  (form.flatMap (fun kv =>
    [utf8Bytes "--" ++ boundary,
     utf8Bytes "Content-Disposition: form-data; name=\"" ++ utf8Bytes kv.1 ++ utf8Bytes "\"",
     [],
     utf8Bytes kv.2])) ++
  (files.flatMap (fun kfc =>
    [utf8Bytes "--" ++ boundary,
     utf8Bytes "Content-Disposition: form-data; name=\"" ++ utf8Bytes kfc.1 ++
       utf8Bytes "\"; filename=\"" ++ utf8Bytes kfc.2.1 ++ utf8Bytes "\"",
     [],
     kfc.2.2])) ++
  [utf8Bytes "--" ++ boundary ++ utf8Bytes "--"]

/-- The specification's reading of the multipart body when the listed lines
are joined with CRLF as a separator: no trailing CRLF after the terminator
line. -/
def multipartBodySpec (form : List (String × String))
    (files : List (String × String × List Nat)) (boundary : List Nat) : List Nat :=
  List.intercalate [13, 10] (multipartLinesSpec form files boundary)

/-- A CRLF-terminated rendering of a line sequence: every line, the last
included, is followed by CRLF. -/
def crlfTerminated (lines : List (List Nat)) : List Nat :=
  (lines.map (fun l => l ++ [13, 10])).flatten

/-- The arguments the extended `fetch` forwards to the base client's
`fetch`: the request, callback and `raise_error` are passed through, and
the remaining keyword arguments after the wrapper's edits. -/
structure BaseFetchCall where
  request : String
  callback : Option Nat
  raiseError : Bool
  kwargs : List (String × PyVal)
deriving DecidableEq

/-- Embeds the extended `AsyncHTTPClient.fetch`: pops `form` and `files`
from the keyword arguments; when `form` is truthy and `files` is not,
builds a URL-encoded `POST` body with matching headers; when `files` is
truthy, builds a multipart body with matching headers; otherwise forwards
unchanged. The randomly generated boundary is passed in as the `boundary`
parameter. -/
def fetch (request : String) (callback : Option Nat) (raiseError : Bool)
    (boundary : List Nat) (kwargs : List (String × PyVal)) : BaseFetchCall :=
  let form0 := kwGet "form" kwargs
  let kwargs1 := kwRemove "form" kwargs
  let files0 := kwGet "files" kwargs1
  let kwargs2 := kwRemove "files" kwargs1
  if truthyOpt form0 && !truthyOpt files0 then
    let headers0 := asHeaders (kwGet "headers" kwargs2)
    let kwargs3 := kwRemove "headers" kwargs2
    let kwargs4 := kwSetdefault "method" (.str "POST") kwargs3
    let body := urlencode (asForm form0)
    let headers1 := hSet "Content-Type" (.str "application/x-www-form-urlencoded") headers0
    let headers2 := hSet "Content-Length" (.str (toString body.length)) headers1
    let kwargs5 := kwSet "body" (.str body) kwargs4
    let kwargs6 := kwSet "headers" (.hdrs headers2) kwargs5
    ⟨request, callback, raiseError, kwargs6⟩
  else if truthyOpt files0 then
    let headers0 := asHeaders (kwGet "headers" kwargs2)
    let kwargs3 := kwRemove "headers" kwargs2
    let kwargs4 := kwSetdefault "method" (.str "POST") kwargs3
    let body := encode_multipart (asForm form0) (asFiles files0) boundary
    let contentType := utf8Bytes "multipart/form-data; boundary=" ++ boundary
    let headers1 := hSet "Content-Type" (.bytes contentType) headers0
    let headers2 := hSet "Content-Length" (.str (toString body.length)) headers1
    let kwargs5 := kwSet "body" (.bytes body) kwargs4
    let kwargs6 := kwSet "headers" (.hdrs headers2) kwargs5
    ⟨request, callback, raiseError, kwargs6⟩
  else
    ⟨request, callback, raiseError, kwargs2⟩

/-! ## tester.py: the `Tester` harness -/

/-- The `Tester` object's state. The wrapped application is modelled by its
reverse-routing facility `app` (the `reverse_url` function from route name
and positional arguments to a path), event loops by numeric identities, and
the bound socket by its local host/port address. The Boolean fields
`_httpServer` and `_httpClient` record whether the server and client
handles are present. -/
structure Tester where
  app : String → List String → String
  ioLoop : Nat
  setupFlag : Bool
  usedFlag : Bool
  httpServerFlag : Bool
  httpClientFlag : Bool
  lastCurrent : Option Nat
  sockAddr : Option (String × Nat)
  port : Option Nat

/-- Embeds `Tester.__init__`: flags cleared, no handles, the requested port
recorded. -/
def Tester.init (app : String → List String → String) (ioLoop : Nat)
    (port : Option Nat) : Tester :=
  ⟨app, ioLoop, false, false, false, false, none, none, port⟩

/-- Embeds `Tester.setup`. The ambient current event loop and the address
the operating system binds are external inputs, passed as `current` and
`addr`; a requested fixed port overrides the bound port. Fails when already
set up, then when ever used; on success marks the instance used, saves the
previously current loop, creates the server and client handles, binds the
socket and marks the instance set up. -/
def Tester.setup (t : Tester) (current : Nat) (addr : String × Nat) :
    Except String Tester :=
  if t.setupFlag then .error "This tester was already setup."
  else if t.usedFlag then .error "Tester can not be reused."
  else
    let bound := match t.port with
      | none => addr
      | some p => (addr.1, p)
    .ok { t with
      usedFlag := true
      lastCurrent := some current
      httpServerFlag := true
      httpClientFlag := true
      sockAddr := some bound
      port := some bound.2
      setupFlag := true }

/-- Embeds `Tester.teardown`: fails when not set up; on success closes the
client, server and socket (clearing their handles), restores the previously
current loop and clears the set-up flag, while the used flag stays set. -/
def Tester.teardown (t : Tester) : Except String Tester :=
  if !t.setupFlag then .error "You can not teardown tester not setup yet."
  else
    .ok { t with
      httpClientFlag := false
      httpServerFlag := false
      sockAddr := none
      lastCurrent := none
      setupFlag := false }

/-- Embeds the `Tester.sock` property: the bound socket, only while set
up. -/
def Tester.sock (t : Tester) : Except String (Option (String × Nat)) :=
  if !t.setupFlag then
    .error "Tester should be set up before using this property."
  else .ok t.sockAddr

/-- Embeds the `Tester.http_server` property: the server handle, only while
set up. -/
def Tester.http_server (t : Tester) : Except String Bool :=
  if !t.setupFlag then
    .error "Tester should be set up before using this property."
  else .ok t.httpServerFlag

/-- Embeds the `Tester.http_client` property: the client handle, only while
set up. -/
def Tester.http_client (t : Tester) : Except String Bool :=
  if !t.setupFlag then
    .error "Tester should be set up before using this property."
  else .ok t.httpClientFlag

/-- The string `http://host:port` formatted from the bound socket's local
address, as `Tester.base_url` computes it. -/
def Tester.baseUrlStr (t : Tester) : String :=
  let a := t.sockAddr.getD ("", 0)
  "http://" ++ a.1 ++ ":" ++ toString a.2

/-- Embeds the `Tester.base_url` property: only while set up. -/
def Tester.base_url (t : Tester) : Except String String :=
  if !t.setupFlag then
    .error "Tester should be set up before using this property."
  else .ok t.baseUrlStr

/-- Embeds `Tester.url_for`: fails while not set up; an absolute
`http://`/`https://` URL passes through; a `/`-prefixed path is appended to
the base URL; otherwise the name is reverse-routed through the application
and appended to the base URL; keyword arguments become query parameters in
every case. -/
def Tester.url_for (t : Tester) (nameOrUrl : String) (args : List String)
    (kwargs : List (String × String)) : Except String String :=
  if !t.setupFlag then
    .error "Tester should be set up before using this method."
  else if strStartsWith nameOrUrl "http://" || strStartsWith nameOrUrl "https://" then
    .ok (_add_query_params nameOrUrl kwargs)
  else if strStartsWith nameOrUrl "/" then
    .ok (_add_query_params (t.baseUrlStr ++ nameOrUrl) kwargs)
  else
    .ok (_add_query_params (t.baseUrlStr ++ t.app nameOrUrl args) kwargs)

/-- A tester is fresh when it was never set up: both lifecycle flags are
clear. -/
def Tester.isFresh (t : Tester) : Bool :=
  !t.setupFlag && !t.usedFlag

/-- A lifecycle operation on a tester: a setup attempt (with its external
inputs) or a teardown attempt. -/
inductive Op where
  | setupOp (current : Nat) (addr : String × Nat)
  | teardownOp

/-- Applies one lifecycle operation. -/
def applyOp (t : Tester) : Op → Except String Tester
  | .setupOp c a => t.setup c a
  | .teardownOp => t.teardown

/-- Runs a sequence of lifecycle operations, succeeding only when every
operation succeeds. -/
def run (t : Tester) : List Op → Option Tester
  | [] => some t
  | op :: ops =>
    match applyOp t op with
    | .ok t1 => run t1 ops
    | .error _ => none

/-! ## tester.py: the `gen_test` adapter -/

/-- An input delivered to a driven generator: a value sent into it or an
exception thrown into it. -/
inductive GInput where
  | send (v : Nat)
  | throwIn (e : String)
deriving DecidableEq

/-- A generator's reaction to one input: it yields a next value with a new
internal state, finishes with a return value (`StopIteration`), or lets an
exception escape. -/
inductive GOutput (σ : Type) where
  | yielded (v : Nat) (s : σ)
  | stopped (r : Nat)
  | raised (e : String)
deriving DecidableEq

/-- A generator, modelled by its reaction function from internal state and
input to output. -/
structure Generator (σ : Type) where
  step : σ → GInput → GOutput σ

/-- The message of the error the adapter throws into the generator when the
current event loop changes mid-test. -/
def multiLoopError : String :=
  "You cannot use multiple I/O loops in one test."

/-- The outcome of one iteration of the adapter's driving loop: continue
with the next yielded value and generator state, finish with the
generator's return value, or propagate an escaped exception. -/
inductive StepResult (σ : Type) where
  | continueWith (v : Nat) (s : σ)
  | finished (r : Nat)
  | errored (e : String)
deriving DecidableEq

/-- The generator input produced from what the event loop handed back for
the previously yielded value: a result is sent, an exception is thrown. -/
def toInput : Except String Nat → GInput
  | .ok v => .send v
  | .error e => .throwIn e

/-- Folds a generator's output into a loop outcome, as the adapter's
`while` body and its surrounding `StopIteration` handler do. -/
def foldOutput : GOutput σ → StepResult σ
  | .yielded v s => .continueWith v s
  | .stopped r => .finished r
  | .raised e => .errored e

/-- One iteration of `gen_test`'s `with_ioloop` loop body, instrumented
with the list of inputs actually delivered to the generator. The event
loop's answer `recv` is sent or thrown into the generator; if the generator
yields and the now-current loop `current` differs from the captured loop
`io`, the multiple-loops error is thrown into the generator instead of
continuing with the yielded value. -/
def driverStep (g : Generator σ) (s : σ) (recv : Except String Nat)
    (current io : Nat) : StepResult σ × List GInput :=
  let inp := toInput recv
  match g.step s inp with
  | .stopped r => (.finished r, [inp])
  | .raised e => (.errored e, [inp])
  | .yielded v s1 =>
    if current ≠ io then
      (foldOutput (g.step s1 (.throwIn multiLoopError)),
       [inp, .throwIn multiLoopError])
    else (.continueWith v s1, [inp])

/-- The adapter's whole driving loop, with explicit fuel. The environment
`env` supplies, for each step index, the event loop's answer to the
previously yielded value and the identity of the then-current loop. -/
def driverLoop (g : Generator σ) (io : Nat)
    (env : Nat → Except String Nat × Nat) :
    Nat → Nat → σ → Option (Except String Nat)
  | 0, _, _ => none
  | fuel + 1, k, s =>
    let a := env k
    match (driverStep g s a.1 a.2 io).1 with
    | .continueWith _ s1 => driverLoop g io env fuel (k + 1) s1
    | .finished r => some (.ok r)
    | .errored e => some (.error e)

/-- A test function handed to `gen_test`: either a plain function or a
generator function, the latter given by the generator's reaction to its
first advance together with its subsequent reaction function. -/
inductive TestFn (α σ : Type) where
  | plain (f : α → Nat)
  | genfn (start : α → GOutput σ) (g : Generator σ)

/-- Embeds the `gen_test` wrapper. A plain function is called and its
result returned directly; the Boolean records whether the event loop was
run (`run_sync`), which for a plain function never happens. A generator
function is advanced once; `current` is the loop that is current at that
moment, captured as the authoritative loop; then the driving loop runs
under `run_sync` with the environment's answers. -/
def gen_test (fn : TestFn α σ) (a : α) (current : Nat)
    (env : Nat → Except String Nat × Nat) (fuel : Nat) :
    Option (Except String Nat) × Bool :=
  match fn with
  | .plain f => (some (.ok (f a)), false)
  | .genfn start g =>
    match start a with
    | .stopped _ => (some (.error "StopIteration"), false)
    | .raised e => (some (.error e), false)
    | .yielded _ s => (driverLoop g current env fuel 0 s, true)

/-! ## Concrete fixtures used to exercise the theorems -/

/-- A reverse-routing function for a small application: a route name maps
to a slash-prefixed path followed by the positional arguments. -/
def appR : String → List String → String := fun name args =>
  "/" ++ name ++ String.join (args.map (fun a => "/" ++ a))

/-- A freshly constructed tester. -/
def freshTester : Tester := Tester.init appR 1 none

/-- The tester obtained from `freshTester` by a successful setup binding
`127.0.0.1:8888`. -/
def activeTester : Tester :=
  ⟨appR, 1, true, true, true, true, some 0, some ("127.0.0.1", 8888), some 8888⟩

/-- The tester obtained from `activeTester` by a successful teardown. -/
def tornTester : Tester :=
  ⟨appR, 1, false, true, false, false, none, none, some 8888⟩

/-- A small concrete generator: a sent value yields the sum of the value
and the state, while any thrown exception ends the generator with 7. -/
def genW : Generator Nat :=
  ⟨fun s inp =>
    match inp with
    | .send v => .yielded (v + s) (s + 1)
    | .throwIn _ => .stopped 7⟩

/-! ## Helper lemmas on the dictionary operations -/

theorem kwGet_kwRemove_self (k : String) : ∀ l, kwGet k (kwRemove k l) = none := by
  intro l
  induction l with
  | nil => rfl
  | cons kv t ih =>
    by_cases h : kv.1 = k
    · simpa [kwRemove, h] using ih
    · simp [kwRemove, h, kwGet, ih]

theorem kwGet_kwRemove_ne (k k' : String) (h : k ≠ k') :
    ∀ l, kwGet k (kwRemove k' l) = kwGet k l := by
  have h' : k' ≠ k := Ne.symm h
  intro l
  induction l with
  | nil => rfl
  | cons kv t ih =>
    by_cases h1 : kv.1 = k'
    · simp [kwRemove, h1, kwGet, h', ih]
    · by_cases h3 : kv.1 = k
      · simp [kwRemove, h1, kwGet, h3, h, Ne.symm h]
      · simp [kwRemove, h1, kwGet, h3, ih]

theorem kwGet_kwSet_self (k : String) (v : PyVal) :
    ∀ l, kwGet k (kwSet k v l) = some v := by
  intro l
  induction l with
  | nil => simp [kwSet, kwGet]
  | cons kv t ih =>
    by_cases h : kv.1 = k
    · simp [kwSet, h, kwGet]
    · simp [kwSet, h, kwGet, ih]

theorem kwGet_kwSet_ne (k k' : String) (v : PyVal) (h : k ≠ k') :
    ∀ l, kwGet k (kwSet k' v l) = kwGet k l := by
  have h' : k' ≠ k := Ne.symm h
  intro l
  induction l with
  | nil => simp [kwSet, kwGet, h']
  | cons kv t ih =>
    by_cases h1 : kv.1 = k'
    · simp [kwSet, h1, kwGet, h']
    · by_cases h3 : kv.1 = k
      · simp [kwSet, h1, kwGet, h3, h, h']
      · simp [kwSet, h1, kwGet, h3, ih]

theorem kwGet_append_none (k : String) (l l' : List (String × PyVal))
    (h : kwGet k l = none) : kwGet k (l ++ l') = kwGet k l' := by
  induction l with
  | nil => rfl
  | cons kv t ih =>
    by_cases h1 : kv.1 = k
    · simp [kwGet, h1] at h
    · simp [kwGet, h1] at h ⊢
      exact ih h

theorem kwGet_append_some (k : String) (l l' : List (String × PyVal)) (w : PyVal)
    (h : kwGet k l = some w) : kwGet k (l ++ l') = some w := by
  induction l with
  | nil => simp [kwGet] at h
  | cons kv t ih =>
    by_cases h1 : kv.1 = k
    · simp [kwGet, h1] at h ⊢
      exact h
    · simp [kwGet, h1] at h ⊢
      exact ih h

theorem kwGet_kwSetdefault_ne (k k' : String) (v : PyVal) (h : k ≠ k')
    (l : List (String × PyVal)) : kwGet k (kwSetdefault k' v l) = kwGet k l := by
  unfold kwSetdefault
  by_cases hs : (kwGet k' l).isSome
  · simp [hs]
  · simp only [hs, if_false, Bool.false_eq_true]
    cases hkl : kwGet k l with
    | some w => exact kwGet_append_some k l _ w hkl
    | none =>
      rw [kwGet_append_none k l _ hkl]
      simp [kwGet, Ne.symm h]

theorem kwGet_kwSetdefault_self (k : String) (v : PyVal) (l : List (String × PyVal))
    (h : kwGet k l = none) : kwGet k (kwSetdefault k v l) = some v := by
  unfold kwSetdefault
  simp only [h, Option.isSome_none, if_false, Bool.false_eq_true]
  rw [kwGet_append_none k l _ h]
  simp [kwGet]

theorem hGet_hSet_self (k : String) (v : HVal) :
    ∀ h, hGet k (hSet k v h) = some v := by
  intro l
  induction l with
  | nil => simp [hSet, hGet]
  | cons kv t ih =>
    by_cases h : kv.1 = k
    · simp [hSet, h, hGet]
    · simp [hSet, h, hGet, ih]

theorem hGet_hSet_ne (k k' : String) (v : HVal) (hne : k ≠ k') :
    ∀ h, hGet k (hSet k' v h) = hGet k h := by
  have h' : k' ≠ k := Ne.symm hne
  intro l
  induction l with
  | nil => simp [hSet, hGet, h']
  | cons kv t ih =>
    by_cases h1 : kv.1 = k'
    · simp [hSet, h1, hGet, h']
    · by_cases h3 : kv.1 = k
      · simp [hSet, h1, hGet, h3, hne, h']
      · simp [hSet, h1, hGet, h3, ih]

/-- Looking up a key other than `headers`, `method` and `body` through the
header/method/body edits both `fetch` branches perform reaches the
underlying keyword list unchanged. -/
theorem kwGet_branch_edits (k : String) (hv bv mv : PyVal)
    (base : List (String × PyVal)) (h1 : k ≠ "headers") (h2 : k ≠ "body")
    (h3 : k ≠ "method") :
    kwGet k (kwSet "headers" hv (kwSet "body" bv
      (kwSetdefault "method" mv (kwRemove "headers" base)))) = kwGet k base := by
  rw [kwGet_kwSet_ne k "headers" hv h1, kwGet_kwSet_ne k "body" bv h2,
    kwGet_kwSetdefault_ne k "method" mv h3, kwGet_kwRemove_ne k "headers" h1]

/-- Joining a line list that ends in one extra empty line with CRLF as a
separator is the same as terminating every original line with CRLF. -/
theorem intercalate_crlf_snoc_nil :
    ∀ ls : List (List Nat), List.intercalate [13, 10] (ls ++ [[]]) = crlfTerminated ls := by
  intro ls
  induction ls with
  | nil => rfl
  | cons a t ih =>
    cases t with
    | nil => simp [List.intercalate, List.intersperse, crlfTerminated]
    | cons b t' =>
      simp only [List.cons_append, List.intercalate, List.intersperse_cons_cons,
        List.flatten_cons] at ih ⊢
      simp [crlfTerminated, ih, List.append_assoc]

/-- The body the source's `encode_multipart` builds is exactly the
specification's line sequence with every line, the terminator included,
followed by CRLF. -/
theorem encode_multipart_eq_crlfTerminated (form : List (String × String))
    (files : List (String × String × List Nat)) (boundary : List Nat) :
    encode_multipart form files boundary =
      crlfTerminated (multipartLinesSpec form files boundary) := by
  rw [← intercalate_crlf_snoc_nil]
  unfold encode_multipart multipartLinesSpec
  simp [List.append_assoc]

/-- Once a tester's used flag is set, no sequence of successful lifecycle
operations ever clears it. -/
theorem run_preserves_used :
    ∀ (ops : List Op) (t t' : Tester),
      t.usedFlag = true → run t ops = some t' → t'.usedFlag = true := by
  intro ops
  induction ops with
  | nil =>
    intro t t' hu hr
    simp only [run, Option.some.injEq] at hr
    rw [← hr]; exact hu
  | cons op rest ih =>
    intro t t' hu hr
    cases op with
    | setupOp c a =>
      by_cases hs : t.setupFlag
      · simp [run, applyOp, Tester.setup, hs] at hr
      · simp [run, applyOp, Tester.setup, hs, hu] at hr
    | teardownOp =>
      by_cases hs : t.setupFlag
      · simp only [run, applyOp, Tester.teardown, hs, Bool.not_true,
          Bool.false_eq_true, if_false] at hr
        refine ih _ t' ?_ hr
        simpa using hu
      · simp [run, applyOp, Tester.teardown, hs] at hr

/-- C1: `setup()` while active fails with the already-set-up error;
`setup()` on an instance that was ever activated before and is no longer
active (in particular after a clean teardown) fails with the cannot-reuse
error; a successful `setup()` permanently marks the instance used and no
sequence of successful setup/teardown operations leads a used instance
back to the fresh state, so the state machine fresh, active, torn-down has
no path back to fresh. -/
theorem C1_setup_one_shot :
    (∀ (t : Tester) (c : Nat) (a : String × Nat), t.setupFlag = true →
      t.setup c a = .error "This tester was already setup.") ∧
    (∀ (t : Tester) (c : Nat) (a : String × Nat),
      t.setupFlag = false → t.usedFlag = true →
      t.setup c a = .error "Tester can not be reused.") ∧
    (∀ (t t' : Tester) (c : Nat) (a : String × Nat), t.setup c a = .ok t' →
      t'.usedFlag = true ∧ t'.setupFlag = true) ∧
    (∀ (t t' : Tester) (ops : List Op),
      t.usedFlag = true → run t ops = some t' → t'.isFresh = false) := by
  refine ⟨?_, ?_, ?_, ?_⟩
  · intro t c a hs
    simp [Tester.setup, hs]
  · intro t c a hs hu
    simp [Tester.setup, hs, hu]
  · intro t t' c a hok
    by_cases hs : t.setupFlag
    · simp [Tester.setup, hs] at hok
    · by_cases hu : t.usedFlag
      · simp [Tester.setup, hs, hu] at hok
      · simp only [Tester.setup, hs, Bool.false_eq_true, if_false, hu,
          Except.ok.injEq] at hok
        rw [← hok]
        exact ⟨rfl, rfl⟩
  · intro t t' ops hu hr
    have := run_preserves_used ops t t' hu hr
    simp [Tester.isFresh, this]

/-- C1 witness: the claim's three error paths and the no-return invariant
at concrete testers: setup on an active tester, setup after a clean
teardown, and a used, torn-down tester never becoming fresh again. -/
theorem C1_setup_one_shot_witness :
    activeTester.setup 0 ("127.0.0.1", 8888) =
      .error "This tester was already setup." ∧
    tornTester.setup 0 ("127.0.0.1", 8888) =
      .error "Tester can not be reused." ∧
    tornTester.isFresh = false :=
  ⟨C1_setup_one_shot.1 activeTester 0 ("127.0.0.1", 8888) rfl,
   C1_setup_one_shot.2.1 tornTester 0 ("127.0.0.1", 8888) rfl rfl,
   C1_setup_one_shot.2.2.2 tornTester tornTester [] rfl rfl⟩

/-- C8: on a tester that is not active (fresh or torn down), the `sock`,
`http_server`, `http_client` and `base_url` accessors and the `url_for`
method each fail with a not-set-up runtime error. -/
theorem C8_inactive_access_errors (t : Tester) (h : t.setupFlag = false) :
    t.sock = .error "Tester should be set up before using this property." ∧
    t.http_server = .error "Tester should be set up before using this property." ∧
    t.http_client = .error "Tester should be set up before using this property." ∧
    t.base_url = .error "Tester should be set up before using this property." ∧
    ∀ (n : String) (args : List String) (kw : List (String × String)),
      t.url_for n args kw =
        .error "Tester should be set up before using this method." := by
  refine ⟨?_, ?_, ?_, ?_, ?_⟩
  · simp [Tester.sock, h]
  · simp [Tester.http_server, h]
  · simp [Tester.http_client, h]
  · simp [Tester.base_url, h]
  · intro n args kw
    simp [Tester.url_for, h]

/-- C8 witness: the accessors fail on a fresh tester and on a torn-down
tester. -/
theorem C8_inactive_access_errors_witness :
    freshTester.sock =
      .error "Tester should be set up before using this property." ∧
    tornTester.base_url =
      .error "Tester should be set up before using this property." ∧
    tornTester.url_for "hello" [] [] =
      .error "Tester should be set up before using this method." :=
  ⟨(C8_inactive_access_errors freshTester rfl).1,
   (C8_inactive_access_errors tornTester rfl).2.2.2.1,
   (C8_inactive_access_errors tornTester rfl).2.2.2.2 "hello" [] []⟩

/-- C2: on an active tester, `url_for` resolves its target in priority
order: an input starting with `http://` or `https://` is returned with only
the query parameters appended (unchanged when there are none); otherwise an
input starting with `/` is appended to the base URL; otherwise the input is
reverse-routed through the application with the positional arguments and
appended to the base URL. The base URL is what the `base_url` accessor
returns. -/
theorem C2_url_for_priority (t : Tester) (h : t.setupFlag = true)
    (n : String) (args : List String) (kw : List (String × String)) :
    ((strStartsWith n "http://" || strStartsWith n "https://") = true →
      t.url_for n args kw = .ok (_add_query_params n kw) ∧
      (kw = [] → t.url_for n args kw = .ok n)) ∧
    ((strStartsWith n "http://" || strStartsWith n "https://") = false →
      strStartsWith n "/" = true →
      t.url_for n args kw = .ok (_add_query_params (t.baseUrlStr ++ n) kw)) ∧
    ((strStartsWith n "http://" || strStartsWith n "https://") = false →
      strStartsWith n "/" = false →
      t.url_for n args kw =
        .ok (_add_query_params (t.baseUrlStr ++ t.app n args) kw)) ∧
    t.base_url = .ok t.baseUrlStr := by
  refine ⟨?_, ?_, ?_, ?_⟩
  · intro habs
    constructor
    · simp [Tester.url_for, h, habs]
    · intro hkw
      simp [Tester.url_for, h, habs, hkw, _add_query_params]
  · intro habs hsl
    simp [Tester.url_for, h, habs, hsl]
  · intro habs hsl
    simp [Tester.url_for, h, habs, hsl]
  · simp [Tester.base_url, h]

/-- C2 witness: on a concretely active tester bound to `127.0.0.1:8888`,
an absolute URL passes through unchanged, a slash path and a named route
are appended to the base URL. -/
theorem C2_url_for_priority_witness :
    activeTester.url_for "https://www.google.com/api" [] [] =
      .ok "https://www.google.com/api" ∧
    activeTester.url_for "/hello2" [] [] =
      .ok "http://127.0.0.1:8888/hello2" ∧
    activeTester.url_for "hello" [] [] =
      .ok "http://127.0.0.1:8888/hello" := by
  refine ⟨?_, ?_, ?_⟩
  · exact ((C2_url_for_priority activeTester rfl "https://www.google.com/api"
      [] []).1 (by decide)).2 rfl
  · have h := (C2_url_for_priority activeTester rfl "/hello2" [] []).2.1
      (by decide) (by decide)
    rw [h]
    exact congrArg Except.ok (by decide)
  · have h := (C2_url_for_priority activeTester rfl "hello" [] []).2.2.1
      (by decide) (by decide)
    rw [h]
    exact congrArg Except.ok (by decide)

/-- C7: with a non-empty keyword-parameter mapping, `_add_query_params`
URL-encodes the parameters and appends them to the pre-fragment part of
the URL, joined with `&` when that part already contains a query string
(a `?`) and attached with a leading `?` otherwise, and the fragment part
after the first `#` is preserved and re-appended after the query string;
with an empty mapping the URL is returned unchanged. -/
theorem C7_query_param_append (url pre frag : String)
    (params : List (String × String)) :
    (params = [] → _add_query_params url params = url) ∧
    (params ≠ [] → splitFirstHash url = (pre, some frag) →
      _add_query_params url params =
        (if strContainsChar pre '?' then pre ++ "&" ++ urlencode params
         else pre ++ "?" ++ urlencode params) ++ "#" ++ frag) ∧
    (params ≠ [] → splitFirstHash url = (pre, none) →
      _add_query_params url params =
        if strContainsChar pre '?' then pre ++ "&" ++ urlencode params
        else pre ++ "?" ++ urlencode params) := by
  refine ⟨?_, ?_, ?_⟩
  · intro hp
    simp [_add_query_params, hp]
  · intro hp hsplit
    have hne : params.isEmpty = false := by
      cases params with
      | nil => exact absurd rfl hp
      | cons a t => rfl
    simp only [_add_query_params, hne, Bool.false_eq_true, if_false, hsplit]
  · intro hp hsplit
    have hne : params.isEmpty = false := by
      cases params with
      | nil => exact absurd rfl hp
      | cons a t => rfl
    simp only [_add_query_params, hne, Bool.false_eq_true, if_false, hsplit]

/-- C7 witness: a URL with an existing query string and a fragment gets
the encoded parameter merged with `&` before the re-appended fragment, a
bare URL gets `?`, and empty parameters leave the URL unchanged. -/
theorem C7_query_param_append_witness :
    _add_query_params "http://h/a?x=1#sec" [("q", "a b")] =
      "http://h/a?x=1&q=a+b#sec" ∧
    _add_query_params "http://h/a" [("q", "1")] = "http://h/a?q=1" ∧
    _add_query_params "http://h/a?x=1#sec" [] = "http://h/a?x=1#sec" := by
  refine ⟨?_, ?_, ?_⟩
  · have h := (C7_query_param_append "http://h/a?x=1#sec" "http://h/a?x=1"
      "sec" [("q", "a b")]).2.1 (by decide) (by decide)
    rw [h]
    decide
  · have h := (C7_query_param_append "http://h/a" "http://h/a" ""
      [("q", "1")]).2.2 (by decide) (by decide)
    rw [h]
    decide
  · exact (C7_query_param_append "http://h/a?x=1#sec" "" "" []).1 rfl

/-- C6: `encoding` resolves the charset in priority order: the
`Content-Encoding` header's text value when that header is present;
otherwise the charset parameter parsed from `Content-Type` when that
header is present, defaulting to `utf-8` when no charset parameter is
there; otherwise `utf-8`. -/
theorem C6_encoding_priority (r : HTTPResponse) :
    (∀ e, r.contentEncoding = some e → encoding r = e) ∧
    (r.contentEncoding = none → ∀ ct, r.contentType = some ct →
      encoding r = (charsetParam ct).getD "utf-8" ∧
      (charsetParam ct = none → encoding r = "utf-8")) ∧
    (r.contentEncoding = none → r.contentType = none →
      encoding r = "utf-8") := by
  refine ⟨?_, ?_, ?_⟩
  · intro e he
    simp [encoding, he]
  · intro hn ct hct
    constructor
    · simp [encoding, hn, hct]
    · intro hcp
      simp [encoding, hn, hct, hcp]
  · intro hn hct
    simp [encoding, hn, hct]

/-- C6 witness: `Content-Encoding` wins when present; the charset
parameter of `Content-Type` is parsed out, with and without quotes; and
`utf-8` is the default with no charset parameter or no headers at all. -/
theorem C6_encoding_priority_witness :
    encoding ⟨some "gzip", some "text/plain; charset=iso-8859-1", []⟩ =
      "gzip" ∧
    encoding ⟨none, some "text/plain; charset=iso-8859-1", []⟩ =
      "iso-8859-1" ∧
    encoding ⟨none, some "text/plain", []⟩ = "utf-8" ∧
    encoding ⟨none, none, []⟩ = "utf-8" := by
  refine ⟨?_, ?_, ?_, ?_⟩
  · exact (C6_encoding_priority _).1 "gzip" rfl
  · have h := ((C6_encoding_priority
      ⟨none, some "text/plain; charset=iso-8859-1", []⟩).2.1 rfl
      "text/plain; charset=iso-8859-1" rfl).1
    rw [h]
    decide
  · have h := ((C6_encoding_priority ⟨none, some "text/plain", []⟩).2.1 rfl
      "text/plain" rfl).2 (by decide)
    exact h
  · exact (C6_encoding_priority ⟨none, none, []⟩).2.2 rfl rfl

/-- The extended `fetch` in its multipart branch: with a non-empty files
value (after the `form` pop), the forwarded call carries the multipart
body, edited headers and defaulted method. -/
theorem fetch_files_branch (req : String) (cb : Option Nat) (re : Bool)
    (boundary : List Nat) (kwargs : List (String × PyVal))
    (fl : List (String × String × List Nat)) (hfl : fl.isEmpty = false)
    (hget : kwGet "files" (kwRemove "form" kwargs) = some (PyVal.files fl)) :
    fetch req cb re boundary kwargs =
      ⟨req, cb, re,
        kwSet "headers" (.hdrs (hSet "Content-Length"
            (.str (toString (encode_multipart (asForm (kwGet "form" kwargs))
              fl boundary).length))
          (hSet "Content-Type"
            (.bytes (utf8Bytes "multipart/form-data; boundary=" ++ boundary))
            (asHeaders (kwGet "headers" (kwRemove "files" (kwRemove "form" kwargs)))))))
        (kwSet "body"
          (.bytes (encode_multipart (asForm (kwGet "form" kwargs)) fl boundary))
          (kwSetdefault "method" (.str "POST")
            (kwRemove "headers" (kwRemove "files" (kwRemove "form" kwargs)))))⟩ := by
  simp [fetch, hget, truthyOpt, PyVal.truthy, hfl, asFiles]

/-- The extended `fetch` in its form branch: with a non-empty form value
and no files value, the forwarded call carries the URL-encoded body,
edited headers and defaulted method. -/
theorem fetch_form_branch (req : String) (cb : Option Nat) (re : Bool)
    (boundary : List Nat) (kwargs : List (String × PyVal))
    (fm : List (String × String)) (hfm : fm.isEmpty = false)
    (hget : kwGet "form" kwargs = some (PyVal.form fm))
    (hfiles : kwGet "files" kwargs = none) :
    fetch req cb re boundary kwargs =
      ⟨req, cb, re,
        kwSet "headers" (.hdrs (hSet "Content-Length"
            (.str (toString (urlencode fm).length))
          (hSet "Content-Type" (.str "application/x-www-form-urlencoded")
            (asHeaders (kwGet "headers" (kwRemove "files" (kwRemove "form" kwargs)))))))
        (kwSet "body" (.str (urlencode fm))
          (kwSetdefault "method" (.str "POST")
            (kwRemove "headers" (kwRemove "files" (kwRemove "form" kwargs)))))⟩ := by
  have hf0 : kwGet "files" (kwRemove "form" kwargs) = none := by
    rw [kwGet_kwRemove_ne "files" "form" (by decide)]
    exact hfiles
  simp [fetch, hget, hf0, truthyOpt, PyVal.truthy, hfm, asForm]

/-- C3 counterexample: calling the extended `fetch` with a `files` argument
that is an empty mapping takes neither encoding branch — the method is not
defaulted to `POST` and no multipart body is set, against the claim's
"whenever fetch is called with a files argument"; moreover, on a non-empty
files mapping the body the code builds is not the CRLF-separated join of
the claim's lines, because the code appends a final empty line, leaving a
trailing CRLF after the terminator line. -/
theorem C3_files_multipart_counterexample :
    (kwGet "method" (fetch "u" none true (utf8Bytes "B")
        [("files", PyVal.files [])]).kwargs = none ∧
      kwGet "body" (fetch "u" none true (utf8Bytes "B")
        [("files", PyVal.files [])]).kwargs = none) ∧
    encode_multipart [] [("f", "a", utf8Bytes "Hi")] (utf8Bytes "B") ≠
      multipartBodySpec [] [("f", "a", utf8Bytes "Hi")] (utf8Bytes "B") := by
  decide

/-- C3 as amended: whenever the extended `fetch` is called with a
non-empty `files` argument (with or without `form`), the HTTP method
defaults to `POST`, the request body is exactly the multipart encoding —
the claim's form-field and file-field line blocks and the final
`--boundary--` terminator line, with every line, the terminator included,
terminated by CRLF — and the `Content-Type` header is set to
`multipart/form-data; boundary=<token>` with `Content-Length` equal to the
encoded body's byte length. -/
theorem C3_files_multipart (req : String) (cb : Option Nat) (re : Bool)
    (boundary : List Nat) (kwargs : List (String × PyVal))
    (fl : List (String × String × List Nat)) (hfl : fl ≠ [])
    (hget : kwGet "files" kwargs = some (PyVal.files fl)) :
    (kwGet "method" kwargs = none →
      kwGet "method" (fetch req cb re boundary kwargs).kwargs =
        some (.str "POST")) ∧
    kwGet "body" (fetch req cb re boundary kwargs).kwargs =
      some (.bytes (encode_multipart (asForm (kwGet "form" kwargs)) fl boundary)) ∧
    (∃ h0, kwGet "headers" (fetch req cb re boundary kwargs).kwargs =
        some (.hdrs h0) ∧
      hGet "Content-Type" h0 =
        some (.bytes (utf8Bytes "multipart/form-data; boundary=" ++ boundary)) ∧
      hGet "Content-Length" h0 =
        some (.str (toString (encode_multipart (asForm (kwGet "form" kwargs))
          fl boundary).length))) ∧
    encode_multipart (asForm (kwGet "form" kwargs)) fl boundary =
      crlfTerminated (multipartLinesSpec (asForm (kwGet "form" kwargs))
        fl boundary) := by
  have hfl1 : fl.isEmpty = false := by
    cases fl with
    | nil => exact absurd rfl hfl
    | cons a t => rfl
  have hf0 : kwGet "files" (kwRemove "form" kwargs) = some (PyVal.files fl) := by
    rw [kwGet_kwRemove_ne "files" "form" (by decide)]
    exact hget
  rw [fetch_files_branch req cb re boundary kwargs fl hfl1 hf0]
  refine ⟨?_, ?_, ?_, ?_⟩
  · intro hm
    rw [kwGet_kwSet_ne "method" "headers" _ (by decide),
      kwGet_kwSet_ne "method" "body" _ (by decide),
      kwGet_kwSetdefault_self "method" _ _ ?_]
    rw [kwGet_kwRemove_ne "method" "headers" (by decide),
      kwGet_kwRemove_ne "method" "files" (by decide),
      kwGet_kwRemove_ne "method" "form" (by decide)]
    exact hm
  · rw [kwGet_kwSet_ne "body" "headers" _ (by decide),
      kwGet_kwSet_self "body" _]
  · refine ⟨hSet "Content-Length"
        (.str (toString (encode_multipart (asForm (kwGet "form" kwargs))
          fl boundary).length))
        (hSet "Content-Type"
          (.bytes (utf8Bytes "multipart/form-data; boundary=" ++ boundary))
          (asHeaders (kwGet "headers" (kwRemove "files" (kwRemove "form" kwargs))))),
      ?_, ?_, ?_⟩
    · rw [kwGet_kwSet_self "headers" _]
    · rw [hGet_hSet_ne "Content-Type" "Content-Length" _ (by decide),
        hGet_hSet_self "Content-Type" _]
    · rw [hGet_hSet_self "Content-Length" _]
  · exact encode_multipart_eq_crlfTerminated _ _ _

/-- C3 witness: a concrete single-file upload produces a `POST` with the
multipart body and headers. -/
theorem C3_files_multipart_witness :
    kwGet "body" (fetch "u" none true (utf8Bytes "B")
      [("files", PyVal.files [("file", "a.txt", utf8Bytes "Hi")])]).kwargs =
      some (.bytes (encode_multipart []
        [("file", "a.txt", utf8Bytes "Hi")] (utf8Bytes "B"))) ∧
    kwGet "method" (fetch "u" none true (utf8Bytes "B")
      [("files", PyVal.files [("file", "a.txt", utf8Bytes "Hi")])]).kwargs =
      some (.str "POST") := by
  have h := C3_files_multipart "u" none true (utf8Bytes "B")
    [("files", PyVal.files [("file", "a.txt", utf8Bytes "Hi")])]
    [("file", "a.txt", utf8Bytes "Hi")] (by decide) (by decide)
  exact ⟨h.2.1, h.1 rfl⟩

/-- C5 counterexample: calling the extended `fetch` with an empty `form`
mapping and no `files` falls through to the base client unchanged — the
method is not defaulted to `POST` and no body or headers are set, against
the claim's "including an empty one". -/
theorem C5_form_urlencoded_counterexample :
    kwGet "method" (fetch "u" none true []
      [("form", PyVal.form [])]).kwargs = none ∧
    kwGet "body" (fetch "u" none true []
      [("form", PyVal.form [])]).kwargs = none ∧
    (fetch "u" none true [] [("form", PyVal.form [])]).kwargs = [] := by
  decide

/-- C5 as amended: whenever the extended `fetch` is called with a
non-empty `form` argument and no `files` argument, the HTTP method
defaults to `POST`, the request body is the
`application/x-www-form-urlencoded` percent-encoding of the form mapping,
the `Content-Type` header is set to `application/x-www-form-urlencoded`,
and the `Content-Length` header is set to the body's length. -/
theorem C5_form_urlencoded (req : String) (cb : Option Nat) (re : Bool)
    (boundary : List Nat) (kwargs : List (String × PyVal))
    (fm : List (String × String)) (hfm : fm ≠ [])
    (hget : kwGet "form" kwargs = some (PyVal.form fm))
    (hfiles : kwGet "files" kwargs = none) :
    (kwGet "method" kwargs = none →
      kwGet "method" (fetch req cb re boundary kwargs).kwargs =
        some (.str "POST")) ∧
    kwGet "body" (fetch req cb re boundary kwargs).kwargs =
      some (.str (urlencode fm)) ∧
    (∃ h0, kwGet "headers" (fetch req cb re boundary kwargs).kwargs =
        some (.hdrs h0) ∧
      hGet "Content-Type" h0 =
        some (.str "application/x-www-form-urlencoded") ∧
      hGet "Content-Length" h0 =
        some (.str (toString (urlencode fm).length))) := by
  have hfm1 : fm.isEmpty = false := by
    cases fm with
    | nil => exact absurd rfl hfm
    | cons a t => rfl
  rw [fetch_form_branch req cb re boundary kwargs fm hfm1 hget hfiles]
  refine ⟨?_, ?_, ?_⟩
  · intro hm
    rw [kwGet_kwSet_ne "method" "headers" _ (by decide),
      kwGet_kwSet_ne "method" "body" _ (by decide),
      kwGet_kwSetdefault_self "method" _ _ ?_]
    rw [kwGet_kwRemove_ne "method" "headers" (by decide),
      kwGet_kwRemove_ne "method" "files" (by decide),
      kwGet_kwRemove_ne "method" "form" (by decide)]
    exact hm
  · rw [kwGet_kwSet_ne "body" "headers" _ (by decide),
      kwGet_kwSet_self "body" _]
  · refine ⟨hSet "Content-Length" (.str (toString (urlencode fm).length))
        (hSet "Content-Type" (.str "application/x-www-form-urlencoded")
          (asHeaders (kwGet "headers" (kwRemove "files" (kwRemove "form" kwargs))))),
      ?_, ?_, ?_⟩
    · rw [kwGet_kwSet_self "headers" _]
    · rw [hGet_hSet_ne "Content-Type" "Content-Length" _ (by decide),
        hGet_hSet_self "Content-Type" _]
    · rw [hGet_hSet_self "Content-Length" _]

/-- C5 witness: a concrete one-field form produces a `POST` with the
URL-encoded body. -/
theorem C5_form_urlencoded_witness :
    kwGet "body" (fetch "u" none true []
      [("form", PyVal.form [("a", "b c")])]).kwargs =
      some (.str "a=b+c") ∧
    kwGet "method" (fetch "u" none true []
      [("form", PyVal.form [("a", "b c")])]).kwargs = some (.str "POST") := by
  have h := C5_form_urlencoded "u" none true []
    [("form", PyVal.form [("a", "b c")])] [("a", "b c")]
    (by decide) (by decide) (by decide)
  refine ⟨?_, h.1 rfl⟩
  have hb := h.2.1
  rw [hb]
  exact congrArg (fun s => some (PyVal.str s)) (by decide)

/-- C4: during every step of the adapter's driving loop (any generator
state, so not only the first step), when the now-current event loop
differs from the loop captured at the generator's first suspension and the
generator has yielded, the multiple-I/O-loops runtime error is thrown into
the generator instead of continuing with the yielded value: the inputs
delivered to the generator in that step are the loop's answer followed by
the thrown error, and the step's outcome is the generator's reaction to
that error; when the generator instead finishes, only the loop's answer is
delivered. -/
theorem C4_per_step_loop_check (σ : Type) (g : Generator σ) (s : σ)
    (recv : Except String Nat) (current io : Nat) (hne : current ≠ io) :
    (∀ v s1, g.step s (toInput recv) = .yielded v s1 →
      (driverStep g s recv current io).2 =
        [toInput recv, .throwIn multiLoopError] ∧
      (driverStep g s recv current io).1 =
        foldOutput (g.step s1 (.throwIn multiLoopError))) ∧
    (∀ r, g.step s (toInput recv) = .stopped r →
      (driverStep g s recv current io).2 = [toInput recv] ∧
      (driverStep g s recv current io).1 = .finished r) := by
  constructor
  · intro v s1 hstep
    constructor
    · simp [driverStep, hstep, hne]
    · simp [driverStep, hstep, hne]
  · intro r hstep
    constructor
    · simp [driverStep, hstep]
    · simp [driverStep, hstep]

/-- C4 witness: a concrete generator driven on step state 0 under a
changed current loop (2 instead of the captured 3) receives the sent value
and then the injected multiple-loops error, which it answers by stopping
with 7. -/
theorem C4_per_step_loop_check_witness :
    (driverStep genW 0 (.ok 5) 2 3).2 = [.send 5, .throwIn multiLoopError] ∧
    (driverStep genW 0 (.ok 5) 2 3).1 = .finished 7 := by
  have h := (C4_per_step_loop_check Nat genW 0 (.ok 5) 2 3 (by decide)).1
    5 1 rfl
  exact ⟨h.1, h.2⟩

/-- C9: wrapping a function that is not a generator function with the
adapter is a no-op passthrough: the wrapper calls the function on the
arguments and returns its result directly, and the event loop is never run
(the `run_sync` flag is `false`), whatever the ambient loop, environment
and fuel are. -/
theorem C9_plain_passthrough (α σ : Type) (f : α → Nat) (a : α)
    (current : Nat) (env : Nat → Except String Nat × Nat) (fuel : Nat) :
    gen_test (TestFn.plain f : TestFn α σ) a current env fuel =
      (some (.ok (f a)), false) := rfl

/-- C10: the extended `fetch` consumes the `form` and `files` keyword
arguments — they never reach the base client's fetch — and in every case
(form branch, files branch, or neither) any other keyword argument apart
from `headers`, `method` and `body` reaches the base client's fetch
unchanged, as do the request, the callback and the `raise_error` flag. -/
theorem C10_kwargs_frame (req : String) (cb : Option Nat) (re : Bool)
    (boundary : List Nat) (kwargs : List (String × PyVal)) :
    kwGet "form" (fetch req cb re boundary kwargs).kwargs = none ∧
    kwGet "files" (fetch req cb re boundary kwargs).kwargs = none ∧
    (∀ k, k ≠ "form" → k ≠ "files" → k ≠ "headers" → k ≠ "method" →
      k ≠ "body" →
      kwGet k (fetch req cb re boundary kwargs).kwargs = kwGet k kwargs) ∧
    (fetch req cb re boundary kwargs).request = req ∧
    (fetch req cb re boundary kwargs).callback = cb ∧
    (fetch req cb re boundary kwargs).raiseError = re := by
  have key : ∀ k : String, k ≠ "headers" → k ≠ "body" → k ≠ "method" →
      kwGet k (fetch req cb re boundary kwargs).kwargs =
        kwGet k (kwRemove "files" (kwRemove "form" kwargs)) := by
    intro k h1 h2 h3
    simp only [fetch]
    split
    · exact kwGet_branch_edits k _ _ _ _ h1 h2 h3
    · split
      · exact kwGet_branch_edits k _ _ _ _ h1 h2 h3
      · rfl
  refine ⟨?_, ?_, ?_, ?_, ?_, ?_⟩
  · rw [key "form" (by decide) (by decide) (by decide),
      kwGet_kwRemove_ne "form" "files" (by decide),
      kwGet_kwRemove_self "form"]
  · rw [key "files" (by decide) (by decide) (by decide),
      kwGet_kwRemove_self "files"]
  · intro k hform hfiles hheaders hmethod hbody
    rw [key k hheaders hbody hmethod,
      kwGet_kwRemove_ne k "files" hfiles,
      kwGet_kwRemove_ne k "form" hform]
  · simp only [fetch]
    split
    · rfl
    · split
      · rfl
      · rfl
  · simp only [fetch]
    split
    · rfl
    · split
      · rfl
      · rfl
  · simp only [fetch]
    split
    · rfl
    · split
      · rfl
      · rfl

/-- C10 witness: a concrete call with an extra keyword argument passes it
through unchanged while consuming `form` and `files`. -/
theorem C10_kwargs_frame_witness :
    kwGet "x" (fetch "u" none true []
      [("form", PyVal.form [("a", "b")]), ("x", PyVal.str "keep")]).kwargs =
      kwGet "x" [("form", PyVal.form [("a", "b")]), ("x", PyVal.str "keep")] ∧
    kwGet "form" (fetch "u" none true []
      [("form", PyVal.form [("a", "b")]), ("x", PyVal.str "keep")]).kwargs =
      none :=
  ⟨(C10_kwargs_frame "u" none true []
      [("form", PyVal.form [("a", "b")]), ("x", PyVal.str "keep")]).2.2.1 "x"
      (by decide) (by decide) (by decide) (by decide) (by decide),
   (C10_kwargs_frame "u" none true []
      [("form", PyVal.form [("a", "b")]), ("x", PyVal.str "keep")]).1⟩

end TornadoTester
